import Mathlib

/-!
Verification of the measurement-lifecycle service in `src/index.ts`.

The service is an Express application keeping an in-memory array `database`
of `Measure` records, with three endpoints: `POST /upload` (validate a
submission, detect duplicate reports, resolve the image to a numeric value
via an external recognition service, insert a record), `PATCH /confirm`
(one-time confirmation of a record's value) and `GET /:customer_code/list`
(filtered listing).

This file shallowly embeds the handlers as pure Lean functions.  JavaScript
runtime values arriving in a JSON request body are modelled by `JsonVal`
(strings, numbers, booleans, null, undefined); JS numbers are modelled as
integers, which suffices for every property below (values are only stored
and compared, never computed with).  External collaborators are parameters:
`new Date(...)` parsing is a `dateParses` oracle, the recognition service
result is an `Option Int`, and the `Date.now()` clock is a `Nat` argument.
The shared mutable `database` array becomes explicit state passing of a
`List Measure`.
-/

/-- A JavaScript value as it can occur in a parsed JSON request body
(plus `undefined` for absent fields / query parameters).  JS numbers are
modelled as integers; the code under verification never does arithmetic on
them, it only stores and compares them. -/
inductive JsonVal where
  | str (s : String)
  | num (n : Int)
  | boolean (b : Bool)
  | null
  | undefined
deriving DecidableEq, Repr

/-- `typeof v === 'string'`. -/
def jsTypeofString : JsonVal → Bool
  | .str _ => true
  | _ => false

/-- `typeof v === 'number'`. -/
def jsTypeofNumber : JsonVal → Bool
  | .num _ => true
  | _ => false

/-- JS truthiness test: the falsy values among those representable here are
`""`, `0`, `false`, `null` and `undefined`. -/
def jsFalsy : JsonVal → Bool
  | .str s => s == ""
  | .num n => n == 0
  | .boolean b => !b
  | .null => true
  | .undefined => true

/-- JS string coercion `String(v)`, as applied implicitly by regex methods
on non-string arguments. -/
def jsToString : JsonVal → String
  | .str s => s
  | .num n => toString n
  | .boolean b => if b then "true" else "false"
  | .null => "null"
  | .undefined => "undefined"

/-- JS `String.prototype.toUpperCase()`.  Every string this development
evaluates it on is ASCII, where it agrees with uppercasing character by
character (written over the character list so the kernel can evaluate it;
`String.toUpper` is the same map). -/
def jsToUpperCase (s : String) : String := String.mk (s.data.map Char.toUpper)

/-- Shape of every error body: `{error_code, error_description}`. -/
structure ErrResp where
  error_code : String
  error_description : String
deriving DecidableEq, Repr

/-- `formatErrorResponse` from the source: an `INVALID_DATA` body with the
given description. -/
def formatErrorResponse (description : String) : ErrResp :=
  { error_code := "INVALID_DATA", error_description := description }

/-- `isValidDate` wraps `!isNaN(new Date(dateString).getTime())`.  Date
parsing is ECMAScript-engine behaviour, external to the code under
verification, so it is passed in as the oracle `dateParses` (applied to the
raw body value, since `new Date(x)` also accepts non-strings). -/
def isValidDate (dateParses : JsonVal → Bool) (dateString : JsonVal) : Bool :=
  dateParses dateString

/-- The data-URI headers accepted by the regex
`/^data:image\/(jpeg|png|webp|heic|heif);base64,/` in `isBase64Image`. -/
def dataUriHeaders : List String :=
  ["data:image/jpeg;base64,", "data:image/png;base64,", "data:image/webp;base64,",
   "data:image/heic;base64,", "data:image/heif;base64,"]

/-- `image.replace(base64ImageRegex, '')` guarded by
`base64ImageRegex.test(image)`: strip the data-URI header if one is
present, otherwise keep the string unchanged. -/
def stripDataUriHeader (image : String) : String :=
  match dataUriHeaders.find? (fun p => p.data.isPrefixOf image.data) with
  | some p => String.mk (image.data.drop p.data.length)
  | none => image

/-- A character of the base64 alphabet `[A-Za-z0-9+/]`. -/
def isBase64Char (c : Char) : Bool :=
  c.isAlphanum || c = '+' || c = '/'

/-- The regex `/^[A-Za-z0-9+/]*={0,2}$/`: a run of base64-alphabet
characters followed by at most two `=` padding characters. -/
def matchesBase64Pattern (s : String) : Bool :=
  let rest := s.toList.dropWhile isBase64Char
  decide (rest.length ≤ 2) && rest.all (fun c => c == '=')

/-- `isBase64Image` from the source: strip an optional data-URI header,
require the body length to be a multiple of 4 and the body to match the
base64 pattern, then `atob`.  On a string that already passed both checks
(only alphabet characters with at most two trailing `=`, total length a
multiple of 4) `atob` always succeeds, so no further condition remains. -/
def isBase64Image (image : String) : Bool :=
  let base64Data := stripDataUriHeader image
  if base64Data.length % 4 != 0 then false
  else matchesBase64Pattern base64Data

/-- `const validMeasureTypes = ['WATER', 'GAS']`. -/
def validMeasureTypes : List String := ["WATER", "GAS"]

/-- `validateUploadRequest` from the source, checked in source order:
customer code must be a string, the datetime must parse, the type must be
a string whose uppercasing is WATER or GAS, the image must be truthy and
base64-valid.  First failure wins; `none` means no error. -/
def validateUploadRequest (dateParses : JsonVal → Bool)
    (image customer_code measure_datetime measure_type : JsonVal) : Option ErrResp :=
  if !jsTypeofString customer_code then
    some (formatErrorResponse "Código do cliente inválido. Esperado uma string.")
  else if !isValidDate dateParses measure_datetime then
    some (formatErrorResponse "Data e hora da medição inválidas. Esperado uma string de data válida.")
  else if !(jsTypeofString measure_type
      && validMeasureTypes.contains (jsToUpperCase (jsToString measure_type))) then
    some (formatErrorResponse "Tipo de medição inválido. Esperado \"WATER\" ou \"GAS\".")
  else if jsFalsy image || !isBase64Image (jsToString image) then
    some (formatErrorResponse
      "Dados da imagem inválidos. Certifique-se de que a imagem esteja codificada em Base64")
  else none

/-- One record of the in-memory `database`.  `customer_code` and
`measure_type` are `String` because the upload validation guarantees both
body fields are strings before a record is ever built; `measure_datetime`
is stored exactly as it arrived in the body (the code only requires it to
parse as a date, which non-strings can). -/
structure Measure where
  measure_uuid : String
  customer_code : String
  measure_datetime : JsonVal
  measure_type : String
  filePath : String
  measure_value : Option Int
  has_confirmed : Bool
deriving DecidableEq, Repr

/-- Outcome of `POST /upload`. -/
inductive UploadResp where
  | success (image_url : String) (measure_value : Int) (measure_uuid : String)
  | failure (status : Nat) (err : ErrResp)
deriving DecidableEq, Repr

/-- The temporary file path `path.join(__dirname, 'tmp', `${Date.now()}.jpg`)`,
with the environment-dependent `__dirname` elided. -/
def uploadFilePath (now : Nat) : String := "tmp/" ++ toString now ++ ".jpg"

/-- The `POST /upload` handler.  `now` is `Date.now()` during the request
(used both for the temporary filename and as the generated `measure_uuid`),
`recognition` is the outcome of the external recognition pipeline
(`processAndDescribeImage`; `none` covers its failure-to-null coercion).
Image decoding and file I/O are external collaborators with no effect on
the store, so they do not appear.  Returns the response and the new
database (the source pushes onto a shared array). -/
def uploadHandler (dateParses : JsonVal → Bool) (now : Nat) (recognition : Option Int)
    (db : List Measure)
    (image customer_code measure_datetime measure_type : JsonVal) :
    UploadResp × List Measure :=
  match validateUploadRequest dateParses image customer_code measure_datetime measure_type with
  | some e => (.failure 400 e, db)
  | none =>
    match customer_code, measure_type with
    | .str cc, .str mt =>
      -- `database.find(measure => measure.measure_datetime === measure_datetime)`
      -- followed by the type comparison on the found record, if any.
      if (db.find? (fun m => m.measure_datetime == measure_datetime)).any
          (fun ex => ex.measure_type == mt) then
        (.failure 409 ⟨"DOUBLE_REPORT", "Leitura do mês já realizada para o mesmo tipo"⟩, db)
      else
        match recognition with
        | none =>
          (.failure 500 ⟨"INTERNAL_ERROR", "Falha ao recuperar o valor da medição da IA"⟩, db)
        | some v =>
          let newMeasure : Measure :=
            { measure_uuid := toString now
              customer_code := cc
              measure_datetime := measure_datetime
              measure_type := mt
              filePath := uploadFilePath now
              measure_value := some v
              has_confirmed := false }
          (.success (uploadFilePath now) v newMeasure.measure_uuid, db ++ [newMeasure])
    -- Unreachable: validation already failed unless both fields are strings.
    | _, _ => (.failure 400 (formatErrorResponse "Código do cliente inválido. Esperado uma string."), db)

/-- Outcome of `PATCH /confirm`. -/
inductive ConfirmResp where
  | success
  | failure (status : Nat) (err : ErrResp)
deriving DecidableEq, Repr

/-- The in-place mutation `measure.measure_value = confirmed_value;
measure.has_confirmed = true` applied to the object returned by
`database.find`, i.e. to the first record whose uuid matches. -/
def confirmUpdate (db : List Measure) (uuid : String) (v : Int) : List Measure :=
  match db with
  | [] => []
  | m :: rest =>
    if m.measure_uuid == uuid then
      { m with measure_value := some v, has_confirmed := true } :: rest
    else
      m :: confirmUpdate rest uuid v

/-- The `PATCH /confirm` handler: type validation of both body fields
before any lookup, then first-match lookup by uuid, not-found and
already-confirmed failures, otherwise the one-time update. -/
def confirmHandler (db : List Measure) (measure_uuid confirmed_value : JsonVal) :
    ConfirmResp × List Measure :=
  if !(jsTypeofString measure_uuid && jsTypeofNumber confirmed_value) then
    (.failure 400 ⟨"INVALID_DATA",
      "Tipos de entrada inválidos. Esperado measure_uuid como uma string e confirmed_value como um número."⟩, db)
  else
    match measure_uuid, confirmed_value with
    | .str uuid, .num v =>
      match db.find? (fun m => m.measure_uuid == uuid) with
      | none => (.failure 404 ⟨"MEASURE_NOT_FOUND", "Medição não encontrada."⟩, db)
      | some m =>
        if m.has_confirmed then
          (.failure 409 ⟨"CONFIRMATION_DUPLICATE", "Medição já confirmada."⟩, db)
        else
          (.success, confirmUpdate db uuid v)
    -- Unreachable: the typeof guard already returned unless both match.
    | _, _ => (.failure 400 ⟨"INVALID_DATA",
      "Tipos de entrada inválidos. Esperado measure_uuid como uma string e confirmed_value como um número."⟩, db)

/-- One element of the list response: exactly the five fields the source
projects out (`measure_uuid`, `measure_datetime`, `measure_type`,
`has_confirmed`, `image_url`); in particular no `measure_value` field
exists in the response shape. -/
structure ListEntry where
  measure_uuid : String
  measure_datetime : JsonVal
  measure_type : String
  has_confirmed : Bool
  image_url : String
deriving DecidableEq, Repr

/-- The projection applied by `measures.map(...)` in the list handler. -/
def toListEntry (m : Measure) : ListEntry :=
  { measure_uuid := m.measure_uuid
    measure_datetime := m.measure_datetime
    measure_type := m.measure_type
    has_confirmed := m.has_confirmed
    image_url := m.filePath }

/-- Success body of `GET /:customer_code/list`. -/
structure ListSuccess where
  customer_code : String
  measures : List ListEntry
deriving DecidableEq, Repr

/-- Outcome of `GET /:customer_code/list`. -/
inductive ListResp where
  | success (body : ListSuccess)
  | failure (status : Nat) (err : ErrResp)
deriving DecidableEq, Repr

/-- The `GET /:customer_code/list` handler.  `customer_code` comes from the
URL path, hence is always a string; `measure_type` is the raw query value
(`undefined` when the parameter is absent).  Both the validation guard and
the filter guard use the source's condition
`measure_type && typeof measure_type === 'string'`. -/
def listHandler (db : List Measure) (customer_code : String) (measure_type : JsonVal) :
    ListResp :=
  if !jsFalsy measure_type && jsTypeofString measure_type
      && !validMeasureTypes.contains (jsToUpperCase (jsToString measure_type)) then
    .failure 400 ⟨"INVALID_TYPE", "Tipo de medição não permitido. Valores válidos são WATER ou GAS."⟩
  else
    let measures := db.filter (fun m => m.customer_code == customer_code)
    let measures :=
      if !jsFalsy measure_type && jsTypeofString measure_type then
        measures.filter (fun m =>
          jsToUpperCase m.measure_type == jsToUpperCase (jsToString measure_type))
      else measures
    if measures.length = 0 then
      .failure 404 ⟨"MEASURES_NOT_FOUND", "Nenhuma leitura encontrada."⟩
    else
      .success { customer_code := customer_code, measures := measures.map toListEntry }

/-- One `POST /upload` request together with its per-request environment
(clock value and recognition outcome). -/
structure UploadCall where
  now : Nat
  recognition : Option Int
  image : JsonVal
  customer_code : JsonVal
  measure_datetime : JsonVal
  measure_type : JsonVal

/-- Run a sequence of upload requests against the store, threading the
database through. -/
def runUploads (dateParses : JsonVal → Bool) (db : List Measure) :
    List UploadCall → List Measure
  | [] => db
  | c :: cs =>
    runUploads dateParses
      (uploadHandler dateParses c.now c.recognition db
        c.image c.customer_code c.measure_datetime c.measure_type).2 cs

/-- The duplicate-freedom the guard actually maintains: for every datetime,
the `(datetime, type)` pair of the *first* stored record with that datetime
occurs at most once in the store.  (Pairs involving a non-first type for
the datetime can repeat; see the counterexample for C1.) -/
def dupGuardInv (db : List Measure) : Prop :=
  ∀ (dt : JsonVal) (first : Measure),
    db.find? (fun m => m.measure_datetime == dt) = some first →
    db.countP (fun m => m.measure_datetime == dt && m.measure_type == first.measure_type) ≤ 1

/-! ### Concrete fixtures shared by witnesses and counterexamples -/

/-- Date oracle for concrete scenarios: every value parses (ECMAScript
`new Date` accepts each concrete datetime used below). -/
def dpAll : JsonVal → Bool := fun _ => true

/-- A concrete ISO datetime body value. -/
def sampleDate : JsonVal := .str "2024-01-10T10:00:00Z"

/-- A concrete valid base64 image payload. -/
def sampleImg : JsonVal := .str "AAAA"

/-- A stored, not-yet-confirmed record. -/
def pendingM : Measure :=
  { measure_uuid := "1", customer_code := "C1", measure_datetime := sampleDate,
    measure_type := "WATER", filePath := "tmp/1.jpg", measure_value := some 42,
    has_confirmed := false }

/-! ### Confirmation workflow (C5, C6) -/

/-- After `confirmUpdate`, the first record carrying the uuid is the old
first record with the confirmed value stored and the flag set (the source
mutates the object returned by `database.find`). -/
theorem confirmUpdate_find? (db : List Measure) (uuid : String) (v : Int) (m : Measure)
    (h : db.find? (fun r => r.measure_uuid == uuid) = some m) :
    (confirmUpdate db uuid v).find? (fun r => r.measure_uuid == uuid)
      = some { m with measure_value := some v, has_confirmed := true } := by
  induction db with
  | nil => simp at h
  | cons a rest ih =>
    by_cases ha : (a.measure_uuid == uuid) = true
    · simp only [List.find?_cons, ha] at h
      injection h with h
      subst h
      simp [confirmUpdate, ha, List.find?_cons]
    · rw [Bool.not_eq_true] at ha
      simp only [List.find?_cons, ha] at h
      simp [confirmUpdate, ha, List.find?_cons, ih h]

/-- Claim C5: for a stored, not-yet-confirmed record, `confirm(id, v)`
succeeds and stores `v` with the confirmed flag going false → true; a
second `confirm(id, v2)` fails with `CONFIRMATION_DUPLICATE` and leaves
the store untouched, so the stored value remains `v`. -/
theorem confirm_once_then_duplicate (db : List Measure) (uuid : String) (v v2 : Int)
    (m : Measure)
    (hfind : db.find? (fun r => r.measure_uuid == uuid) = some m)
    (hpend : m.has_confirmed = false) :
    confirmHandler db (.str uuid) (.num v) = (.success, confirmUpdate db uuid v)
    ∧ (confirmUpdate db uuid v).find? (fun r => r.measure_uuid == uuid)
        = some { m with measure_value := some v, has_confirmed := true }
    ∧ confirmHandler (confirmUpdate db uuid v) (.str uuid) (.num v2)
        = (.failure 409 ⟨"CONFIRMATION_DUPLICATE", "Medição já confirmada."⟩,
           confirmUpdate db uuid v) := by
  have hupd := confirmUpdate_find? db uuid v m hfind
  refine ⟨?_, hupd, ?_⟩
  · simp [confirmHandler, jsTypeofString, jsTypeofNumber, hfind, hpend]
  · simp [confirmHandler, jsTypeofString, jsTypeofNumber, hupd]

/-- Witness for C5 at a concrete store: confirm record "1" with 7, then
attempt to re-confirm it with 9. -/
theorem confirm_once_then_duplicate_witness :
    confirmHandler [pendingM] (.str "1") (.num 7) = (.success, confirmUpdate [pendingM] "1" 7)
    ∧ (confirmUpdate [pendingM] "1" 7).find? (fun r => r.measure_uuid == "1")
        = some { pendingM with measure_value := some 7, has_confirmed := true }
    ∧ confirmHandler (confirmUpdate [pendingM] "1" 7) (.str "1") (.num 9)
        = (.failure 409 ⟨"CONFIRMATION_DUPLICATE", "Medição já confirmada."⟩,
           confirmUpdate [pendingM] "1" 7) :=
  confirm_once_then_duplicate [pendingM] "1" 7 9 pendingM (by decide) (by decide)

/-- Claim C6: confirming an id with no matching record fails with
`MEASURE_NOT_FOUND` and leaves the store unchanged; a non-numeric
`confirmed_value` fails with `INVALID_DATA` before any lookup, uniformly
in the id and in the store. -/
theorem confirm_unknown_and_invalid (db : List Measure) (uuid : String)
    (value uuidVal : JsonVal) :
    (jsTypeofNumber value = true →
      db.find? (fun r => r.measure_uuid == uuid) = none →
      confirmHandler db (.str uuid) value
        = (.failure 404 ⟨"MEASURE_NOT_FOUND", "Medição não encontrada."⟩, db))
    ∧ (jsTypeofNumber value = false →
      confirmHandler db uuidVal value
        = (.failure 400 ⟨"INVALID_DATA",
            "Tipos de entrada inválidos. Esperado measure_uuid como uma string e confirmed_value como um número."⟩,
           db)) := by
  constructor
  · intro hnum hfind
    cases value with
    | num n => simp [confirmHandler, jsTypeofString, jsTypeofNumber, hfind]
    | str s => simp [jsTypeofNumber] at hnum
    | boolean b => simp [jsTypeofNumber] at hnum
    | null => simp [jsTypeofNumber] at hnum
    | undefined => simp [jsTypeofNumber] at hnum
  · intro hnum
    simp [confirmHandler, hnum]

/-- Witness for C6: unknown id "404" against a store holding only record
"1", then a string-valued confirmation value. -/
theorem confirm_unknown_and_invalid_witness :
    confirmHandler [pendingM] (.str "404") (.num 1)
      = (.failure 404 ⟨"MEASURE_NOT_FOUND", "Medição não encontrada."⟩, [pendingM])
    ∧ confirmHandler [pendingM] (.str "404") (.str "x")
      = (.failure 400 ⟨"INVALID_DATA",
          "Tipos de entrada inválidos. Esperado measure_uuid como uma string e confirmed_value como um número."⟩,
         [pendingM]) :=
  ⟨(confirm_unknown_and_invalid [pendingM] "404" (.num 1) (.str "404")).1 rfl (by decide),
   (confirm_unknown_and_invalid [pendingM] "404" (.str "x") (.str "404")).2 rfl⟩

/-! ### Listing (C7, C9, C10) -/

/-- A GAS record belonging to another customer. -/
def otherM : Measure :=
  { measure_uuid := "2", customer_code := "C2", measure_datetime := .str "2024-02-10T10:00:00Z",
    measure_type := "GAS", filePath := "tmp/2.jpg", measure_value := some 7,
    has_confirmed := false }

/-- A record stored with a lowercase type, exactly as an upload of
`"water"` leaves it. -/
def lowerM : Measure :=
  { measure_uuid := "3", customer_code := "C1", measure_datetime := .str "2024-03-10T10:00:00Z",
    measure_type := "water", filePath := "tmp/3.jpg", measure_value := some 8,
    has_confirmed := false }

/-- Two chained filters are one filter on the conjunction of the
predicates. -/
theorem filterTwice {α : Type} (p q : α → Bool) (l : List α) :
    (l.filter p).filter q = l.filter (fun a => p a && q a) := by
  induction l with
  | nil => rfl
  | cons a t ih =>
    by_cases hp : p a <;> by_cases hq : q a <;> simp [List.filter_cons, hp, hq, ih]

/-- With a non-empty type filter that normalises to a valid type, the list
handler is the chained customer-then-type filter with the empty-result
failure. -/
theorem listHandler_valid_filter (db : List Measure) (cc s : String)
    (hs' : (s == "") = false)
    (hvalid : validMeasureTypes.contains (jsToUpperCase s) = true) :
    listHandler db cc (.str s) =
      (if ((db.filter (fun m => m.customer_code == cc)).filter
            (fun m => jsToUpperCase m.measure_type == jsToUpperCase s)).length = 0 then
        .failure 404 ⟨"MEASURES_NOT_FOUND", "Nenhuma leitura encontrada."⟩
      else
        .success
          { customer_code := cc,
            measures := ((db.filter (fun m => m.customer_code == cc)).filter
                (fun m => jsToUpperCase m.measure_type == jsToUpperCase s)).map toListEntry }) := by
  unfold listHandler
  simp only [jsFalsy, jsTypeofString, jsToString, hs', hvalid, Bool.not_false, Bool.not_true,
    Bool.true_and, Bool.and_true, Bool.and_false, Bool.false_and, Bool.and_self,
    Bool.false_eq_true, if_false, if_true]

/-- Without a type filter the list handler is the customer filter with the
empty-result failure. -/
theorem listHandler_nofilter (db : List Measure) (cc : String) :
    listHandler db cc .undefined =
      (if (db.filter (fun m => m.customer_code == cc)).length = 0 then
        .failure 404 ⟨"MEASURES_NOT_FOUND", "Nenhuma leitura encontrada."⟩
      else
        .success
          { customer_code := cc,
            measures := (db.filter (fun m => m.customer_code == cc)).map toListEntry }) := rfl

/-- Claim C7: with a valid type filter, the list endpoint returns exactly
the customer's records further filtered by the normalised type, in
insertion order (both filters preserve order), and fails with
`MEASURES_NOT_FOUND` when the filtered result is empty; without a filter
it returns exactly the customer's records.  Each returned entry is
`toListEntry` of the record: only uuid, datetime, type, confirmed flag
and image url — the `ListEntry` shape has no `measure_value` field. -/
theorem list_by_customer (db : List Measure) (cc s : String)
    (hs : s ≠ "") (hvalid : validMeasureTypes.contains (jsToUpperCase s) = true) :
    (listHandler db cc (.str s) =
      (if ((db.filter (fun m => m.customer_code == cc)).filter
            (fun m => jsToUpperCase m.measure_type == jsToUpperCase s)).length = 0 then
        .failure 404 ⟨"MEASURES_NOT_FOUND", "Nenhuma leitura encontrada."⟩
      else
        .success
          { customer_code := cc,
            measures := ((db.filter (fun m => m.customer_code == cc)).filter
                (fun m => jsToUpperCase m.measure_type == jsToUpperCase s)).map toListEntry }))
    ∧ (listHandler db cc .undefined =
      (if (db.filter (fun m => m.customer_code == cc)).length = 0 then
        .failure 404 ⟨"MEASURES_NOT_FOUND", "Nenhuma leitura encontrada."⟩
      else
        .success
          { customer_code := cc,
            measures := (db.filter (fun m => m.customer_code == cc)).map toListEntry })) :=
  ⟨listHandler_valid_filter db cc s (by simpa using hs) hvalid, listHandler_nofilter db cc⟩

/-- Witness for C7: customer C1 filtered by WATER returns its one record,
filtered by GAS fails with `MEASURES_NOT_FOUND`, and C2 unfiltered returns
its one record. -/
theorem list_by_customer_witness :
    listHandler [pendingM, otherM] "C1" (.str "WATER")
      = .success { customer_code := "C1", measures := [toListEntry pendingM] }
    ∧ listHandler [pendingM, otherM] "C1" (.str "GAS")
      = .failure 404 ⟨"MEASURES_NOT_FOUND", "Nenhuma leitura encontrada."⟩
    ∧ listHandler [pendingM, otherM] "C2" .undefined
      = .success { customer_code := "C2", measures := [toListEntry otherM] } := by
  have h1 := (list_by_customer [pendingM, otherM] "C1" "WATER" (by decide) (by decide)).1
  have h2 := (list_by_customer [pendingM, otherM] "C1" "GAS" (by decide) (by decide)).1
  have h3 := (list_by_customer [pendingM, otherM] "C2" "WATER" (by decide) (by decide)).2
  refine ⟨?_, ?_, ?_⟩
  · rw [h1]; decide
  · rw [h2]; decide
  · rw [h3]; decide

/-- Claim C9: an empty-string or non-string `measure_type` query value is
treated exactly as an absent one — no `INVALID_TYPE` validation and no
type filtering happen, so the endpoint behaves as the unfiltered listing
of the customer's records. -/
theorem list_ignores_empty_or_nonstring_filter (db : List Measure) (cc : String) (q : JsonVal)
    (hq : q = .str "" ∨ jsTypeofString q = false) :
    listHandler db cc q = listHandler db cc .undefined := by
  rcases hq with hq | hq
  · subst hq
    simp [listHandler, jsFalsy, jsTypeofString]
  · cases q with
    | str s => simp [jsTypeofString] at hq
    | num n => simp [listHandler, jsTypeofString]
    | boolean b => simp [listHandler, jsTypeofString]
    | null => simp [listHandler, jsTypeofString]
    | undefined => rfl

/-- Witness for C9: a numeric and an empty-string query value both behave
as no filter, and the empty-string case returns all of C1's records. -/
theorem list_ignores_empty_or_nonstring_filter_witness :
    listHandler [pendingM, otherM] "C1" (.num 3) = listHandler [pendingM, otherM] "C1" .undefined
    ∧ listHandler [pendingM, otherM] "C1" (.str "")
        = listHandler [pendingM, otherM] "C1" .undefined
    ∧ listHandler [pendingM, otherM] "C1" (.str "")
        = .success { customer_code := "C1", measures := [toListEntry pendingM] } :=
  ⟨list_ignores_empty_or_nonstring_filter [pendingM, otherM] "C1" (.num 3) (Or.inr rfl),
   list_ignores_empty_or_nonstring_filter [pendingM, otherM] "C1" (.str "") (Or.inl rfl),
   by decide⟩

/-- Claim C10: the list type filter uppercases both the stored type and
the query value, so with a valid filter `s` a record is selected exactly
when its customer matches and its stored type uppercases to the
normalised filter — e.g. a record stored as "water" is returned when
filtering by "WATER" (see the witness). -/
theorem list_type_filter_case_insensitive (db : List Measure) (cc s : String)
    (hs : s ≠ "") (hvalid : validMeasureTypes.contains (jsToUpperCase s) = true) :
    listHandler db cc (.str s) =
      (if (db.filter (fun m => m.customer_code == cc
            && jsToUpperCase m.measure_type == jsToUpperCase s)).length = 0 then
        .failure 404 ⟨"MEASURES_NOT_FOUND", "Nenhuma leitura encontrada."⟩
      else
        .success
          { customer_code := cc,
            measures := (db.filter (fun m => m.customer_code == cc
                && jsToUpperCase m.measure_type == jsToUpperCase s)).map toListEntry }) := by
  rw [listHandler_valid_filter db cc s (by simpa using hs) hvalid, filterTwice]

/-- Witness for C10: the record stored with type "water" is returned when
filtering by "WATER". -/
theorem list_type_filter_case_insensitive_witness :
    listHandler [lowerM, otherM] "C1" (.str "WATER")
      = .success { customer_code := "C1", measures := [toListEntry lowerM] } := by
  rw [list_type_filter_case_insensitive [lowerM, otherM] "C1" "WATER" (by decide) (by decide)]
  decide

/-! ### Upload endpoint (C1, C2, C3, C4, C8) -/

/-- Store after submitting `(sampleDate, "WATER")` to an empty store. -/
def uploadDb1 : List Measure :=
  (uploadHandler dpAll 1 (some 42) [] sampleImg (.str "C1") sampleDate (.str "WATER")).2

/-- Store after additionally submitting `(sampleDate, "GAS")`. -/
def uploadDb2 : List Measure :=
  (uploadHandler dpAll 2 (some 43) uploadDb1 sampleImg (.str "C1") sampleDate (.str "GAS")).2

/-- Store after submitting `(sampleDate, "GAS")` a second time. -/
def uploadDb3 : List Measure :=
  (uploadHandler dpAll 3 (some 44) uploadDb2 sampleImg (.str "C1") sampleDate (.str "GAS")).2

/-- Counterexample to C2 as stated: `uploadDb2` already contains a record
with datetime `sampleDate` and type "GAS", yet a further submission with
exactly that datetime and type is not rejected — `database.find` only
inspects the *first* record with the datetime, the WATER one — so it
succeeds and inserts a third record. -/
theorem upload_second_same_pair_accepted :
    (uploadDb2.map (fun m => (m.measure_datetime, m.measure_type))).contains
        (sampleDate, "GAS") = true
    ∧ (uploadHandler dpAll 3 (some 44) uploadDb2 sampleImg (.str "C1") sampleDate (.str "GAS")).1
      = .success (uploadFilePath 3) 44 "3"
    ∧ (uploadHandler dpAll 3 (some 44) uploadDb2 sampleImg
        (.str "C1") sampleDate (.str "GAS")).2.length = 3 := by
  decide

/-- Claim C2 (amended): when the *first* stored record with the
submission's exact datetime has the same type, the submission fails with
`DOUBLE_REPORT` and nothing is inserted — for every recognition outcome,
since the guard runs before recognition; when that first record has a
different type, the submission proceeds and, when recognition succeeds, a
record is created (even if some later stored record matches both datetime
and type). -/
theorem upload_double_report_first_match (dp : JsonVal → Bool) (now : Nat)
    (recognition : Option Int) (db : List Measure) (image dt : JsonVal)
    (cc mt : String) (ex : Measure) (v : Int)
    (hval : validateUploadRequest dp image (.str cc) dt (.str mt) = none)
    (hfind : db.find? (fun m => m.measure_datetime == dt) = some ex) :
    (ex.measure_type = mt →
      uploadHandler dp now recognition db image (.str cc) dt (.str mt)
        = (.failure 409 ⟨"DOUBLE_REPORT", "Leitura do mês já realizada para o mesmo tipo"⟩, db))
    ∧ (ex.measure_type ≠ mt → recognition = some v →
      uploadHandler dp now recognition db image (.str cc) dt (.str mt)
        = (.success (uploadFilePath now) v (toString now),
           db ++ [{ measure_uuid := toString now, customer_code := cc,
                    measure_datetime := dt, measure_type := mt,
                    filePath := uploadFilePath now, measure_value := some v,
                    has_confirmed := false }])) := by
  constructor
  · intro heq
    simp [uploadHandler, hval, hfind, heq]
  · intro hne hrec
    subst hrec
    simp [uploadHandler, hval, hfind, hne]

/-- Witness for the amended C2: against a store holding the WATER record at
`sampleDate`, a WATER submission at `sampleDate` is rejected with
`DOUBLE_REPORT` (even with recognition failing, showing the guard runs
first), and a GAS submission at `sampleDate` succeeds and inserts. -/
theorem upload_double_report_first_match_witness :
    uploadHandler dpAll 9 none [pendingM] sampleImg (.str "C1") sampleDate (.str "WATER")
      = (.failure 409 ⟨"DOUBLE_REPORT", "Leitura do mês já realizada para o mesmo tipo"⟩,
         [pendingM])
    ∧ uploadHandler dpAll 9 (some 5) [pendingM] sampleImg (.str "C1") sampleDate (.str "GAS")
      = (.success (uploadFilePath 9) 5 (toString 9),
         [pendingM] ++ [{ measure_uuid := toString 9, customer_code := "C1",
                          measure_datetime := sampleDate, measure_type := "GAS",
                          filePath := uploadFilePath 9, measure_value := some 5,
                          has_confirmed := false }]) :=
  ⟨(upload_double_report_first_match dpAll 9 none [pendingM] sampleImg sampleDate
      "C1" "WATER" pendingM 0 (by decide) (by decide)).1 rfl,
   (upload_double_report_first_match dpAll 9 (some 5) [pendingM] sampleImg sampleDate
      "C1" "GAS" pendingM 5 (by decide) (by decide)).2 (by decide) rfl⟩

/-- Counterexample to C3 as stated: submitting reading type "water"
(accepted case-insensitively by validation) stores the type as "water",
not as the normalised "WATER". -/
theorem upload_stores_raw_type_counterexample :
    ((uploadHandler dpAll 1 (some 42) [] sampleImg (.str "C1") sampleDate (.str "water")).2.map
      (fun m => m.measure_type)) = ["water"]
    ∧ "water" ≠ "WATER" := by decide

/-- Claim C3 (amended): a successful submission stores `measure_type`
exactly as submitted — no normalisation happens on storage — and all
validation guarantees is that the submitted text uppercases to WATER or
GAS. -/
theorem upload_stores_raw_type (dp : JsonVal → Bool) (now : Nat) (db : List Measure)
    (image dt : JsonVal) (cc mt : String) (v : Int)
    (hval : validateUploadRequest dp image (.str cc) dt (.str mt) = none)
    (hguard : (db.find? (fun m => m.measure_datetime == dt)).any
        (fun ex => ex.measure_type == mt) = false) :
    uploadHandler dp now (some v) db image (.str cc) dt (.str mt)
      = (.success (uploadFilePath now) v (toString now),
         db ++ [{ measure_uuid := toString now, customer_code := cc,
                  measure_datetime := dt, measure_type := mt,
                  filePath := uploadFilePath now, measure_value := some v,
                  has_confirmed := false }])
    ∧ validMeasureTypes.contains (jsToUpperCase mt) = true := by
  constructor
  · simp [uploadHandler, hval, hguard]
  · by_contra hc
    rw [Bool.not_eq_true] at hc
    have hmem : jsToUpperCase mt ∉ validMeasureTypes := by simpa using hc
    cases hdp : dp dt with
    | true =>
      simp [validateUploadRequest, isValidDate, jsTypeofString, jsToString, hdp, hmem] at hval
    | false =>
      simp [validateUploadRequest, isValidDate, jsTypeofString, hdp] at hval

/-- Witness for the amended C3: submitting "water" stores "water". -/
theorem upload_stores_raw_type_witness :
    uploadHandler dpAll 4 (some 42) [] sampleImg (.str "C1") sampleDate (.str "water")
      = (.success (uploadFilePath 4) 42 (toString 4),
         [] ++ [{ measure_uuid := toString 4, customer_code := "C1",
                  measure_datetime := sampleDate, measure_type := "water",
                  filePath := uploadFilePath 4, measure_value := some 42,
                  has_confirmed := false }])
    ∧ validMeasureTypes.contains (jsToUpperCase "water") = true :=
  upload_stores_raw_type dpAll 4 [] sampleImg sampleDate "C1" "water" 42
    (by decide) (by decide)

/-- Counterexample to C4 as stated: the validator accepts the empty-string
customer code — rule 1 only checks `typeof === 'string'` — and a record is
created for it. -/
theorem empty_customer_code_accepted :
    validateUploadRequest dpAll sampleImg (.str "") sampleDate (.str "WATER") = none
    ∧ ((uploadHandler dpAll 5 (some 42) [] sampleImg (.str "") sampleDate (.str "WATER")).2.map
        (fun m => m.customer_code)) = [""] := by decide

/-- Claim C4 (amended): the validator rejects every submission whose
customer code is not a string — rule 1, checked before the timestamp,
type and image rules — with the customer-code error, and such a
submission never creates a record; the empty string, being a string,
passes rule 1. -/
theorem validator_rule1_nonstring (dp : JsonVal → Bool) (now : Nat)
    (recognition : Option Int) (db : List Measure)
    (image customer_code measure_datetime measure_type : JsonVal)
    (hcc : jsTypeofString customer_code = false) :
    validateUploadRequest dp image customer_code measure_datetime measure_type
      = some (formatErrorResponse "Código do cliente inválido. Esperado uma string.")
    ∧ uploadHandler dp now recognition db image customer_code measure_datetime measure_type
      = (.failure 400 (formatErrorResponse "Código do cliente inválido. Esperado uma string."),
         db) := by
  have h1 : validateUploadRequest dp image customer_code measure_datetime measure_type
      = some (formatErrorResponse "Código do cliente inválido. Esperado uma string.") := by
    simp [validateUploadRequest, hcc]
  exact ⟨h1, by simp [uploadHandler, h1]⟩

/-- Witness for the amended C4: a numeric customer code is rejected by
rule 1 and leaves the store empty. -/
theorem validator_rule1_nonstring_witness :
    validateUploadRequest dpAll sampleImg (.num 7) sampleDate (.str "WATER")
      = some (formatErrorResponse "Código do cliente inválido. Esperado uma string.")
    ∧ uploadHandler dpAll 6 (some 1) [] sampleImg (.num 7) sampleDate (.str "WATER")
      = (.failure 400 (formatErrorResponse "Código do cliente inválido. Esperado uma string."),
         []) :=
  validator_rule1_nonstring dpAll 6 (some 1) [] sampleImg (.num 7) sampleDate (.str "WATER") rfl

/-- C8 failing input: two valid submissions with distinct datetimes both
processed while `Date.now()` returns 1700000000000 produce two records
with the same `measure_uuid` — the source generates the uuid from the
millisecond clock. -/
theorem upload_same_millisecond_uuid_collision :
    ((uploadHandler dpAll 1700000000000 (some 20)
        (uploadHandler dpAll 1700000000000 (some 10) [] sampleImg
          (.str "C1") sampleDate (.str "WATER")).2
        sampleImg (.str "C1") (.str "2024-02-10T10:00:00Z") (.str "WATER")).2.map
      (fun m => m.measure_uuid)) = ["1700000000000", "1700000000000"] := by decide

/-- Counterexample to C1 as stated: after the reachable submission
sequence `(sampleDate, WATER)`, `(sampleDate, GAS)`, `(sampleDate, GAS)` —
the third call succeeds because the guard only inspects the first record
with the datetime, the WATER one — the store holds two records with the
same exact `(measure_datetime, measure_type)` pair. -/
theorem upload_duplicate_pair_reachable :
    (uploadHandler dpAll 3 (some 44) uploadDb2 sampleImg (.str "C1") sampleDate (.str "GAS")).1
      = .success (uploadFilePath 3) 44 "3"
    ∧ uploadDb3.map (fun m => (m.measure_datetime, m.measure_type))
      = [(sampleDate, "WATER"), (sampleDate, "GAS"), (sampleDate, "GAS")] := by decide

/-- The empty store satisfies the guard invariant. -/
theorem dupGuardInv_nil : dupGuardInv [] := by
  intro dt first h
  simp at h

/-- Appending a record that passed the duplicate guard preserves the
invariant: the new record cannot duplicate the pair of the first record
with its datetime (the guard compared exactly that record), and if no
record with its datetime existed, it becomes the unique first one. -/
theorem dupGuardInv_append (db : List Measure) (nm : Measure)
    (hinv : dupGuardInv db)
    (hguard : (db.find? (fun m => m.measure_datetime == nm.measure_datetime)).any
        (fun ex => ex.measure_type == nm.measure_type) = false) :
    dupGuardInv (db ++ [nm]) := by
  intro dt first hfind
  rw [List.find?_append] at hfind
  rw [List.countP_append]
  cases hdb : db.find? (fun m => m.measure_datetime == dt) with
  | some f =>
    rw [hdb] at hfind
    have hf : f = first := by simpa [Option.or] using hfind
    subst hf
    have h1 := hinv dt f hdb
    have hnm : (nm.measure_datetime == dt && nm.measure_type == f.measure_type) = false := by
      by_cases hd : (nm.measure_datetime == dt) = true
      · have hdd : nm.measure_datetime = dt := by simpa using hd
        rw [hdd] at hguard
        rw [hdb] at hguard
        simp only [Option.any] at hguard
        have hne : ¬ nm.measure_type = f.measure_type := by
          intro he
          rw [he] at hguard
          simp at hguard
        simp [hne]
      · rw [Bool.not_eq_true] at hd
        simp [hd]
    simp [List.countP_cons, hnm]
    exact h1
  | none =>
    rw [hdb] at hfind
    simp only [Option.or] at hfind
    by_cases hd : (nm.measure_datetime == dt) = true
    · have hF : nm = first := by simpa [List.find?_cons, hd] using hfind
      subst hF
      have h0 : db.countP
          (fun m => m.measure_datetime == dt && m.measure_type == nm.measure_type) = 0 := by
        rw [List.countP_eq_zero]
        intro a ha
        have hnone := List.find?_eq_none.mp hdb a ha
        simp at hnone
        simp [hnone]
      rw [h0]
      simp [List.countP_cons, hd]
    · rw [Bool.not_eq_true] at hd
      simp [List.find?_cons, hd] at hfind

/-- One upload step preserves the guard invariant: every path either
leaves the store unchanged or appends a record that passed the guard. -/
theorem uploadHandler_preserves_dupGuardInv (dp : JsonVal → Bool) (now : Nat)
    (recognition : Option Int) (db : List Measure)
    (image customer_code measure_datetime measure_type : JsonVal)
    (hinv : dupGuardInv db) :
    dupGuardInv (uploadHandler dp now recognition db
      image customer_code measure_datetime measure_type).2 := by
  unfold uploadHandler
  cases hv : validateUploadRequest dp image customer_code measure_datetime measure_type with
  | some e => exact hinv
  | none =>
    cases customer_code with
    | str cc =>
      cases measure_type with
      | str mt =>
        by_cases hdup : ((db.find? (fun m => m.measure_datetime == measure_datetime)).any
            (fun ex => ex.measure_type == mt)) = true
        · simp only [hdup, if_true]
          exact hinv
        · rw [Bool.not_eq_true] at hdup
          simp only [hdup, Bool.false_eq_true, if_false]
          cases recognition with
          | none => exact hinv
          | some v => exact dupGuardInv_append db _ hinv hdup
      | num n => exact hinv
      | boolean b => exact hinv
      | null => exact hinv
      | undefined => exact hinv
    | num n => exact hinv
    | boolean b => exact hinv
    | null => exact hinv
    | undefined => exact hinv

/-- Any sequence of upload requests preserves the guard invariant. -/
theorem runUploads_preserves_dupGuardInv (dp : JsonVal → Bool) (calls : List UploadCall)
    (db : List Measure) (hinv : dupGuardInv db) :
    dupGuardInv (runUploads dp db calls) := by
  induction calls generalizing db with
  | nil => exact hinv
  | cons c cs ih =>
    exact ih _ (uploadHandler_preserves_dupGuardInv dp c.now c.recognition db
      c.image c.customer_code c.measure_datetime c.measure_type hinv)

/-- Claim C1 (amended): after every sequence of `/upload` submissions
against an initially empty store, the `(measure_datetime, measure_type)`
pair of the *first* stored record with any given datetime occurs at most
once across the store.  (Pairs whose type differs from that first
record's can repeat — see the counterexample — because the guard only
compares the candidate against the first record with an equal
datetime.) -/
theorem upload_first_type_unique (dp : JsonVal → Bool) (calls : List UploadCall) :
    dupGuardInv (runUploads dp [] calls) :=
  runUploads_preserves_dupGuardInv dp calls [] dupGuardInv_nil
